import Mathlib

/-!
Verification of `apps/ecommerce_full_stack/frontend.py`
(SuperDuperDB community apps).

The file embeds the frontend script shallowly in Lean:

* the credential gate (`hash_password`, the login-button handler, the
  `authentication_status` session value);
* the query dispatcher (`_search`, `text_2_image_search`,
  `text_2_text_search`, `image_search`, `random_product`, the raw
  structured-query branch of the Data tab);
* the per-run control flow of the script that matters for the claims
  (tab order, the module-level `collection` variable, the cached
  backend handle).

Machine integers are `Nat` with explicit `% 2 ^ 32` where the SHA-256
arithmetic of the source wraps; fallible paths return `Except`.  External
library behaviour that the script relies on (Python `hashlib.sha256`,
`json.loads`, pymongo `find`/`limit`, Streamlit `cache_resource`)
is embedded by its documented semantics, marked in the doc comments.
-/

namespace Frontend

/-! ## SHA-256 over `Nat` (semantics of the Python `hashlib.sha256(...).hexdigest()`)

A faithful FIPS 180-4 SHA-256: words are `Nat` values kept below
`2 ^ 32` by explicit reduction.  The script calls it at line 6
(`hash_password`) and inline at line 25 (the login handler). -/

/-- One 32-bit word: reduce a `Nat` modulo `2 ^ 32`. -/
def w32 (x : Nat) : Nat := x % 4294967296

/-- 32-bit right rotation. -/
def rotr (n x : Nat) : Nat := w32 ((x >>> n) ||| (x <<< (32 - n)))

/-- Logical right shift (on 32-bit words this needs no reduction). -/
def shr (n x : Nat) : Nat := x >>> n

/-- 32-bit bitwise complement. -/
def compl32 (x : Nat) : Nat := x ^^^ 4294967295

/-- The 64 SHA-256 round constants, written in decimal. -/
def K : List Nat :=
  [1116352408, 1899447441, 3049323471, 3921009573, 961987163,
   1508970993, 2453635748, 2870763221, 3624381080, 310598401,
   607225278, 1426881987, 1925078388, 2162078206, 2614888103,
   3248222580, 3835390401, 4022224774, 264347078, 604807628,
   770255983, 1249150122, 1555081692, 1996064986, 2554220882,
   2821834349, 2952996808, 3210313671, 3336571891, 3584528711,
   113926993, 338241895, 666307205, 773529912, 1294757372,
   1396182291, 1695183700, 1986661051, 2177026350, 2456956037,
   2730485921, 2820302411, 3259730800, 3345764771, 3516065817,
   3600352804, 4094571909, 275423344, 430227734, 506948616,
   659060556, 883997877, 958139571, 1322822218, 1537002063,
   1747873779, 1955562222, 2024104815, 2227730452, 2361852424,
   2428436474, 2756734187, 3204031479, 3329325298]

/-- The initial SHA-256 hash state, written in decimal. -/
def H0 : List Nat :=
  [1779033703, 3144134277, 1013904242, 2773480762,
   1359893119, 2600822924, 528734635, 1541459225]

/-- UTF-8 encoding of one Unicode code point (semantics of the Python
`str.encode()`, the default codec). -/
def utf8EncodeCodePoint (c : Nat) : List Nat :=
  if c < 0x80 then [c]
  else if c < 0x800 then
    [0xC0 ||| (c >>> 6), 0x80 ||| (c % 64)]
  else if c < 0x10000 then
    [0xE0 ||| (c >>> 12), 0x80 ||| ((c >>> 6) % 64), 0x80 ||| (c % 64)]
  else
    [0xF0 ||| (c >>> 18), 0x80 ||| ((c >>> 12) % 64), 0x80 ||| ((c >>> 6) % 64), 0x80 ||| (c % 64)]

/-- The UTF-8 bytes of a string, as `Nat` values below 256. -/
def encodeUTF8 (s : String) : List Nat :=
  (s.data.map fun ch => utf8EncodeCodePoint ch.toNat).flatten

/-- SHA-256 padding: append `0x80`, zero bytes to 56 mod 64, then the
bit length as 8 big-endian bytes. -/
def sha256pad (msg : List Nat) : List Nat :=
  let L := msg.length * 8
  let zeros := (119 - msg.length % 64) % 64
  msg ++ [0x80] ++ List.replicate zeros 0 ++
    ((List.range 8).map fun i => (L >>> (8 * (7 - i))) % 256)

/-- Big-endian 32-bit words from a byte list (four bytes per word). -/
def bytesToWords : List Nat → List Nat
  | b0 :: b1 :: b2 :: b3 :: rest =>
      (b0 <<< 24 ||| b1 <<< 16 ||| b2 <<< 8 ||| b3) :: bytesToWords rest
  | _ => []

/-- Split a list into chunks of 16 elements (fuel-driven so the kernel
can evaluate it). -/
def chunk16Aux : Nat → List Nat → List (List Nat)
  | 0, _ => []
  | _, [] => []
  | fuel + 1, l => l.take 16 :: chunk16Aux fuel (l.drop 16)

/-- The 512-bit message blocks, each as 16 big-endian words. -/
def sha256blocks (msg : List Nat) : List (List Nat) :=
  let ws := bytesToWords (sha256pad msg)
  chunk16Aux ws.length ws

/-- The small sigma-0 message-schedule function. -/
def ssig0 (x : Nat) : Nat := rotr 7 x ^^^ rotr 18 x ^^^ shr 3 x

/-- The small sigma-1 message-schedule function. -/
def ssig1 (x : Nat) : Nat := rotr 17 x ^^^ rotr 19 x ^^^ shr 10 x

/-- The next message-schedule word from the schedule built so far. -/
def nextScheduleWord (ws : List Nat) : Nat :=
  let t := ws.length
  w32 (ssig1 (ws.getD (t - 2) 0) + ws.getD (t - 7) 0 +
       ssig0 (ws.getD (t - 15) 0) + ws.getD (t - 16) 0)

/-- Extend the 16-word block to the 64-word message schedule. -/
def extendSchedule (ws : List Nat) : Nat → List Nat
  | 0 => ws
  | k + 1 => extendSchedule (ws ++ [nextScheduleWord ws]) k

/-- One SHA-256 round on the eight-word working state. -/
def sha256round (state : List Nat) (kw : Nat × Nat) : List Nat :=
  match state with
  | [a, b, c, d, e, f, g, h] =>
      let s1 := rotr 6 e ^^^ rotr 11 e ^^^ rotr 25 e
      let ch := (e &&& f) ^^^ (compl32 e &&& g)
      let t1 := w32 (h + s1 + ch + kw.2 + kw.1)
      let s0 := rotr 2 a ^^^ rotr 13 a ^^^ rotr 22 a
      let maj := (a &&& b) ^^^ (a &&& c) ^^^ (b &&& c)
      let t2 := w32 (s0 + maj)
      [w32 (t1 + t2), a, b, c, w32 (d + t1), e, f, g]
  | other => other

/-- Compress one 16-word block into the running hash state. -/
def sha256compress (hs : List Nat) (block : List Nat) : List Nat :=
  let sched := extendSchedule block 48
  let final := (sched.zip K).foldl sha256round hs
  List.zipWith (fun x y => w32 (x + y)) hs final

/-- The eight 32-bit digest words of a byte message. -/
def sha256words (msg : List Nat) : List Nat :=
  (sha256blocks msg).foldl sha256compress H0

/-- One lowercase hex digit. -/
def hexDigit (n : Nat) : Char :=
  if n < 10 then Char.ofNat (48 + n) else Char.ofNat (87 + n)

/-- Eight lowercase hex characters of one 32-bit word, big-endian. -/
def wordToHex (x : Nat) : List Char :=
  (List.range 8).map fun i => hexDigit ((x >>> (4 * (7 - i))) % 16)

/-- The lowercase hex digest of a byte message (semantics of the Python
`hashlib.sha256(bytes).hexdigest()`). -/
def sha256hex (msg : List Nat) : String :=
  String.mk ((sha256words msg).map wordToHex).flatten

/-! ## The credential gate (frontend.py lines 5-30) -/

/-- Line 5-6: `hash_password(password)` returns
`hashlib.sha256(password.encode()).hexdigest()`. -/
def hash_password (password : String) : String :=
  sha256hex (encodeUTF8 password)

/-- Line 13: the reference username. -/
def USERNAME : String := "admin"

/-- Line 14: the reference password. -/
def PASSWORD : String := "password"

/-- Line 17: the reference hash, computed once at module load and
reused by every verification. -/
def hashed_password : String := hash_password PASSWORD

/-- Line 25: the credential check of the login handler —
`input_username == USERNAME and
 hashlib.sha256(input_password.encode()).hexdigest() == hashed_password`.
The handler inlines the same digest expression as `hash_password`. -/
def verify (u p : String) : Bool :=
  u == USERNAME && sha256hex (encodeUTF8 p) == hashed_password

/-! ## Session state and the login handler (lines 9-30)

The value `st.session_state["authentication_status"]` is one of None,
True, False in the source; it is embedded as `Option Bool` (`none` is
the "unknown" state). -/

/-- Lines 9-10: at the start of a run the key is set to None only when
it is absent; an existing value is kept. -/
def initAuthStatus (existing : Option (Option Bool)) : Option Bool :=
  existing.getD none

/-- The sidebar message emitted by the login handler (lines 27 and 30). -/
inductive SidebarMsg where
  | loggedIn (u : String)
  | incorrect
  deriving DecidableEq, Repr

/-- Lines 24-30: the login-button handler.  It is total — it never
raises — and ignores the prior session value: on a match it stores
`True` and a success message, otherwise `False` and an error message. -/
def loginHandler (u p : String) ( _prior : Option Bool) : Option Bool × SidebarMsg :=
  if verify u p then (some true, .loggedIn u) else (some false, .incorrect)

/-- One user interaction with the page: a Login click with the current
sidebar inputs, or any other interaction (search, upload, refresh),
which does not touch the session value. -/
inductive UiEvent where
  | loginClick (u p : String)
  | otherInteraction
  deriving DecidableEq, Repr

/-- The effect of one interaction on `authentication_status`: only the
login handler (lines 24-30) writes it. -/
def authStep (s : Option Bool) : UiEvent → Option Bool
  | .loginClick u p => (loginHandler u p s).1
  | .otherInteraction => s

/-- The session value after a sequence of interactions from process
start, where lines 9-10 initialize the absent key to None. -/
def authAfter (evs : List UiEvent) : Option Bool :=
  evs.foldl authStep (initAuthStatus none)

/-! ## Collections, documents and the query dispatcher (lines 59-102) -/

/-- A value the `collection` variable can hold: the superduper
`Collection` of line 59, or the raw pymongo collection object bound at
line 98. -/
inductive CollHandle where
  | superduperColl (name : String)
  | pymongoColl (dbName collName : String)
  deriving DecidableEq, Repr

/-- Line 59: `collection = Collection("multimodal")`. -/
def initialCollection : CollHandle := .superduperColl "multimodal"

/-- A search payload: free text, or an image wrapped by the pillow
encoder. -/
inductive Payload where
  | text (s : String)
  | image (img : String)
  deriving DecidableEq, Repr

/-- The `pil_image` encoder applied to the uploaded or sampled image at
line 77; images are abstracted to their identity. -/
def pil_image (img : String) : Payload := .image img

/-- A document returned by the backend: a finite association of field
names to values (values abstracted to strings). -/
abbrev Doc := List (String × String)

/-- Python subscript access `r[k]` on a document: the value, or an
uncaught KeyError when the field is absent. -/
def getItem (d : Doc) (k : String) : Except String String :=
  match d.find? (fun kv => kv.1 == k) with
  | some kv => .ok kv.2
  | none => .error ("KeyError: " ++ k)

/-- The vector query built by `_search` (lines 65-68):
`collection.like(Document(...), vector_index=index, n=n).find(...)`
against the current collection, with the empty find filter. -/
structure LikeQuery where
  coll : CollHandle
  key : String
  payload : Payload
  vector_index : String
  n : Nat
  deriving DecidableEq, Repr

/-- Lines 65-68: `_search(k, v, index, n=3)` builds the vector query;
the result-count bound `n` defaults to 3 in the source, so call sites
that omit it pass 3 here. -/
def _search (coll : CollHandle) (k : String) (v : Payload) (index : String) (n : Nat) :
    LikeQuery :=
  { coll := coll, key := k, payload := v, vector_index := index, n := n }

/-- Lines 70-71: text-to-image search on the "search" field of
"my-index"; `n` is omitted in the source, so the default 3 applies. -/
def text_2_image_search (coll : CollHandle) (text : String) : LikeQuery :=
  _search coll "search" (.text text) "my-index" 3

/-- Lines 73-74: text-to-text search on the "title" field of
"text-index" with the explicit bound `n=10`. -/
def text_2_text_search (coll : CollHandle) (text : String) : LikeQuery :=
  _search coll "title" (.text text) "text-index" 10

/-- Lines 76-77: image-to-image search on the "img" field of
"my-index"; `n` is omitted in the source, so the default 3 applies. -/
def image_search (coll : CollHandle) (img : String) : LikeQuery :=
  _search coll "img" (pil_image img) "my-index" 3

/-- The aggregation query built by `random_product` (lines 79-84): one
uniform sample of the given size from the current collection. -/
structure SampleQuery where
  coll : CollHandle
  size : Nat
  deriving DecidableEq, Repr

/-- Lines 79-84: `random_product` samples a single document uniformly
from the full collection. -/
def random_product (coll : CollHandle) : SampleQuery :=
  { coll := coll, size := 1 }

/-- Lines 65-68 with a fallible backend: `_search` returns
`db.execute(...)` directly — one backend invocation, its success or
failure passed through with no catch, retry, backoff or fallback. -/
def dispatchSearch (execute : LikeQuery → Except String (List Doc))
    (q : LikeQuery) : Except String (List Doc) :=
  execute q

/-- A structured filter as data; the empty filter (the default query
text of the Data tab) matches every document. -/
inductive MongoFilter where
  | emptyFilter
  | eqField (k v : String)
  deriving DecidableEq, Repr

/-- Whether a document matches a structured filter. -/
def matchesFilter : MongoFilter → Doc → Bool
  | .emptyFilter, _ => true
  | .eqField k v, d => d.find? (fun kv => kv.1 == k) == some (k, v)

/-- Modelled from the spec: the structured query interface of the
backend (pymongo `find` with a projection excluding the internal
identifier, then `limit`) "returns an ordered sequence of documents
with their internal identifier fields excluded", at most `lim` of
them. -/
def mongoFindProject (docs : List Doc) (matchDoc : Doc → Bool) (lim : Nat) : List Doc :=
  ((docs.filter matchDoc).map (fun d => d.filter fun kv => kv.1 != "_id")).take lim

/-- Lines 96-102: the Data-tab raw-query branch.  `json.loads(query)`
may fail; no try/except surrounds it, so the parse failure propagates
unchanged.  On success the raw pymongo collection is queried with the
identifier-excluding projection and limit 5. -/
def tab0RawQuery (parseJson : String → Except String MongoFilter)
    (docs : List Doc) (q : String) : Except String (List Doc) :=
  (parseJson q).map fun f => mongoFindProject docs (matchesFilter f) 5

/-- The rendering loop of the Text Search and Image Search tabs
(lines 109-111 and 118-120): each result is unpacked and its "img" and
"title" fields are accessed in that order; a missing field raises an
uncaught KeyError. -/
def renderResults : List Doc → Except String (List (String × String))
  | [] => .ok []
  | d :: rest => do
      let img ← getItem d "img"
      let title ← getItem d "title"
      let tail ← renderResults rest
      pure ((img, title) :: tail)

/-- A display loop that accesses a single field of each result, as the
Browse-tab secondary columns do; a document missing that one field
raises an uncaught KeyError, and no other field is touched. -/
def renderFieldColumn (field : String) : List Doc → Except String (List String)
  | [] => .ok []
  | d :: rest => do
      let v ← getItem d field
      let tail ← renderFieldColumn field rest
      pure (v :: tail)

/-- Lines 137-139: the image-similarity column of the Browse tab
displays `r["img"]` of each result and never reads its title. -/
def renderImageColumn (docs : List Doc) : Except String (List String) :=
  renderFieldColumn "img" docs

/-- Lines 144-146: the title-similarity column of the Browse tab
displays `r["title"]` of each result and never reads its image. -/
def renderTitleColumn (docs : List Doc) : Except String (List String) :=
  renderFieldColumn "title" docs

/-! ## The Browse tab (lines 122-146)

The sampled document is bound to `r`; the image-similarity results are
computed while `r` still holds the sample, but the display loop
`for r in image_results` rebinds `r`, so the later
`text_2_text_search(r["title"])` reads the final value of the loop
variable.  `unpack()` is the identity on the plain field map. -/

/-- The document whose title seeds the similar-by-title query: the
loop-variable leak leaves `r` at the last image-search result, or at
the sample when there are no image results. -/
def tab3TitleSeedDoc (sample : Doc) (image_results : List Doc) : Doc :=
  image_results.foldl (fun _ d => d) sample

/-- Lines 122-146 in program order: access the sampled img and title
for the centre column, build and run the image-to-image query from the
sampled img, display each image result (accessing its img field), then
build the similar-by-title query from the current value of `r`.
Returns the two queries built. -/
def tab3Run (executeImg : LikeQuery → List Doc) (coll : CollHandle)
    (sample : Doc) : Except String (LikeQuery × LikeQuery) := do
  let img ← getItem sample "img"
  let _ ← getItem sample "title"
  let imgQuery := image_search coll img
  let image_results := executeImg imgQuery
  let _ ← image_results.mapM fun d => getItem d "img"
  let title ← getItem (tab3TitleSeedDoc sample image_results) "title"
  pure (imgQuery, text_2_text_search coll title)

/-! ## Process-wide resources (lines 52-56 and 96-98) -/

/-- The connection resources of one process: the cached superduper
handle (the `st.cache_resource` slot of `_init`) and how many
connections of each kind were created.  Connections are numbered by
creation order. -/
structure ResourceState where
  cachedDb : Option Nat
  sdCreated : Nat
  pyCreated : Nat
  deriving DecidableEq, Repr

/-- No connection exists at process start. -/
def initialResources : ResourceState :=
  { cachedDb := none, sdCreated := 0, pyCreated := 0 }

/-- Lines 52-56: `db = _init()` under `st.cache_resource` — the cached
connection is returned when one exists; otherwise one superduper
connection is created and cached. -/
def getDb (s : ResourceState) : Nat × ResourceState :=
  match s.cachedDb with
  | some c => (c, s)
  | none =>
      let c := s.sdCreated + s.pyCreated
      (c, { s with cachedDb := some c, sdCreated := s.sdCreated + 1 })

/-- Lines 97-98: the raw-query branch constructs
`pymongo.MongoClient(mongodb_uri)` anew on each submission — a fresh
connection every time, never cached. -/
def rawBranchConnect (s : ResourceState) : Nat × ResourceState :=
  (s.sdCreated + s.pyCreated, { s with pyCreated := s.pyCreated + 1 })

/-- One script rerun: line 56 always obtains the cached handle; the
Data-tab pymongo client is created exactly when the Query button was
pressed in that rerun. -/
def scriptRun (s : ResourceState) (rawSubmitted : Bool) : ResourceState :=
  let s1 := (getDb s).2
  if rawSubmitted then (rawBranchConnect s1).2 else s1

/-- The resource state after a sequence of reruns, one flag per rerun
recording whether the raw query was submitted. -/
def runSessions (subs : List Bool) : ResourceState :=
  subs.foldl scriptRun initialResources

/-- How many backend connections a state has created in total. -/
def totalConnections (s : ResourceState) : Nat := s.sdCreated + s.pyCreated

/-- The `collection` variable as the later tabs see it: the Data tab
renders first in each rerun and, when the Query button was pressed,
line 98 rebinds the module-level `collection` to the raw pymongo
collection; the Browse-tab `random_product` and the `_search` helpers
then read the rebound variable. -/
def collectionAfterTab0 (rawSubmitted : Bool) : CollHandle :=
  if rawSubmitted then .pymongoColl "ecommerce" "multimodal" else initialCollection

/-! ## Concrete data used by the witnesses and counterexamples -/

/-- A six-document collection, each document carrying the internal
identifier field; larger than the raw-query limit of 5. -/
def sampleColl : List Doc :=
  [[("_id", "1"), ("img", "a"), ("title", "x")],
   [("_id", "2"), ("img", "b"), ("title", "y")],
   [("_id", "3"), ("img", "c"), ("title", "z")],
   [("_id", "4"), ("img", "d"), ("title", "w")],
   [("_id", "5"), ("img", "e"), ("title", "v")],
   [("_id", "6"), ("img", "f"), ("title", "u")]]

/-- A sampled document for the Browse tab. -/
def browseSample : Doc := [("img", "red.png"), ("title", "Red Shoe")]

/-- A single image-similarity hit, with a title different from the
sampled one. -/
def browseImageHit : Doc := [("img", "blue.png"), ("title", "Blue Hat")]

/-- A document whose title field is present but empty. -/
def blankTitleDoc : Doc := [("img", "a.png"), ("title", "")]

/-- A concrete JSON parse in the spirit of `json.loads`: it accepts
only the default query text of the Data tab and fails on everything
else with the library error. -/
def bracesOnlyParse (s : String) : Except String MongoFilter :=
  if s = "{}" then .ok .emptyFilter else .error "json.decoder.JSONDecodeError"

/-- Whether a fallible rendering completed without an uncaught error. -/
def rendersOk (r : Except String α) : Bool :=
  match r with
  | .ok _ => true
  | .error _ => false

/-! ## Helper lemmas -/

/-- A login or any other interaction never writes None back into the
session value. -/
theorem authStep_ne_none (s : Option Bool) (e : UiEvent) (h : s ≠ none) :
    authStep s e ≠ none := by
  cases e with
  | loginClick u p =>
      cases hv : verify u p <;> simp [authStep, loginHandler, hv]
  | otherInteraction => exact h

/-- Folding any further interactions preserves a non-None session
value. -/
theorem foldl_authStep_ne_none (evs : List UiEvent) (s : Option Bool) (h : s ≠ none) :
    evs.foldl authStep s ≠ none := by
  induction evs generalizing s with
  | nil => exact h
  | cons e rest ih => exact ih _ (authStep_ne_none s e h)

/-- The superduper-cache invariant: at most one superduper connection,
and none before the cache slot is filled. -/
def sdInvariant (s : ResourceState) : Prop :=
  s.sdCreated ≤ 1 ∧ (s.cachedDb = none → s.sdCreated = 0)

/-- One rerun preserves the cache invariant and creates exactly one
pymongo client when the raw query was submitted. -/
theorem scriptRun_invariant (s : ResourceState) (b : Bool) (h : sdInvariant s) :
    sdInvariant (scriptRun s b) ∧
    (scriptRun s b).pyCreated = s.pyCreated + (if b then 1 else 0) := by
  obtain ⟨h1, h2⟩ := h
  cases hc : s.cachedDb <;> cases b <;>
    simp_all [scriptRun, getDb, rawBranchConnect, sdInvariant]

/-- Accumulated form of the rerun invariant over a whole session. -/
theorem runSessions_invariant (subs : List Bool) (s : ResourceState) (h : sdInvariant s) :
    sdInvariant (subs.foldl scriptRun s) ∧
    (subs.foldl scriptRun s).pyCreated = s.pyCreated + subs.count true := by
  induction subs generalizing s with
  | nil => simpa using h
  | cons b rest ih =>
      obtain ⟨hi, hp⟩ := scriptRun_invariant s b h
      obtain ⟨hi2, hp2⟩ := ih (scriptRun s b) hi
      refine ⟨hi2, ?_⟩
      rw [List.foldl_cons, hp2, hp, List.count_cons]
      cases b <;> (simp; try omega)

/-- Rendering succeeds exactly when every document carries both
fields; it is blind to whether the carried values are empty. -/
theorem renderResults_ok_iff (docs : List Doc) :
    rendersOk (renderResults docs) = true ↔
    ∀ d ∈ docs, ((getItem d "img").isOk && (getItem d "title").isOk) = true := by
  induction docs with
  | nil => simp [renderResults, rendersOk]
  | cons d rest ih =>
      simp only [List.forall_mem_cons]
      cases h1 : getItem d "img" with
      | error e =>
          simp [renderResults, h1, rendersOk, Except.isOk, Except.toBool, Bind.bind, Except.bind]
      | ok v =>
          cases h2 : getItem d "title" with
          | error e =>
              simp [renderResults, h1, h2, rendersOk, Except.isOk, Except.toBool,
                Bind.bind, Except.bind]
          | ok w =>
              have hstep :
                  rendersOk (renderResults (d :: rest)) = rendersOk (renderResults rest) := by
                cases h3 : renderResults rest <;>
                  simp [renderResults, h1, h2, h3, rendersOk, Bind.bind, Except.bind,
                    pure, Except.pure]
              rw [hstep, ih]
              simp [h1, h2, Except.isOk, Except.toBool]

/-- A single-field display loop succeeds exactly when every document
carries that one field; no other field matters to it. -/
theorem renderFieldColumn_ok_iff (field : String) (docs : List Doc) :
    rendersOk (renderFieldColumn field docs) = true ↔
    ∀ d ∈ docs, (getItem d field).isOk = true := by
  induction docs with
  | nil => simp [renderFieldColumn, rendersOk]
  | cons d rest ih =>
      simp only [List.forall_mem_cons]
      cases h1 : getItem d field with
      | error e =>
          simp [renderFieldColumn, h1, rendersOk, Except.isOk, Except.toBool,
            Bind.bind, Except.bind]
      | ok v =>
          have hstep :
              rendersOk (renderFieldColumn field (d :: rest)) =
                rendersOk (renderFieldColumn field rest) := by
            cases h3 : renderFieldColumn field rest <;>
              simp [renderFieldColumn, h1, h3, rendersOk, Bind.bind, Except.bind,
                pure, Except.pure]
          rw [hstep, ih]
          simp [h1, Except.isOk, Except.toBool]

/-! ## The claims -/

/-- C1: `verify(u, p)` returns true iff `u` equals the reference
username "admin" under exact case-sensitive string equality and the
SHA-256 hex digest of `p` equals the precomputed hash of the reference
password; it returns false for every other pair — concretely, the
correct pair is accepted, a near-miss password is rejected, and a case
variation of the username is rejected. -/
theorem C1_verify_iff_reference_match :
    (∀ u p : String, verify u p = true ↔ (u = "admin" ∧ hash_password p = hashed_password)) ∧
    verify "admin" "password" = true ∧
    verify "admin" "wrong" = false ∧
    verify "Admin" "password" = false := by
  refine ⟨fun u p => ?_, by decide, by decide, by decide⟩
  simp [verify, USERNAME, hash_password]

/-- C2: the login handler always stores exactly the boolean result of
the verification in the session value, whatever was stored before, and
is a total function — failure is a boolean outcome plus this state
transition, never an exception; the sidebar message agrees with the
outcome. -/
theorem C2_login_overwrites_session :
    ∀ (s : Option Bool) (u p : String),
      (loginHandler u p s).1 = some (verify u p) ∧
      ((loginHandler u p s).2 = SidebarMsg.loggedIn u ↔ verify u p = true) := by
  intro s u p
  cases hv : verify u p <;> simp [loginHandler, hv]

/-- C3: a text-to-image query requests at most 3 results (exactly 3),
a text-to-text query at most 10 (exactly 10), and the raw structured
query returns at most 5 documents with the internal identifier field
stripped from every one of them, regardless of collection size. -/
theorem C3_result_bounds :
    (∀ (c : CollHandle) (t : String), (text_2_image_search c t).n = 3) ∧
    (∀ (c : CollHandle) (t : String), (text_2_text_search c t).n = 10) ∧
    (∀ (docs : List Doc) (f : Doc → Bool),
       (mongoFindProject docs f 5).length ≤ 5 ∧
       ∀ d ∈ mongoFindProject docs f 5, ∀ kv ∈ d, kv.1 ≠ "_id") := by
  refine ⟨fun _ _ => rfl, fun _ _ => rfl, fun docs f => ⟨?_, ?_⟩⟩
  · exact List.length_take_le 5 _
  · intro d hd kv hkv
    have hd2 := List.mem_of_mem_take hd
    rcases List.mem_map.mp hd2 with ⟨d0, _, rfl⟩
    have hkv2 := List.of_mem_filter hkv
    simpa using hkv2

/-- Witness for C3 on the six-document collection: the empty filter
returns five documents and the first returned field of the first
document is not the identifier. -/
theorem C3_result_bounds_witness :
    (mongoFindProject sampleColl (matchesFilter .emptyFilter) 5).length ≤ 5 ∧
    ("img", "a").1 ≠ "_id" :=
  ⟨(C3_result_bounds.2.2 sampleColl (matchesFilter .emptyFilter)).1,
   (C3_result_bounds.2.2 sampleColl (matchesFilter .emptyFilter)).2
     [("img", "a"), ("title", "x")] (by decide) ("img", "a") (by decide)⟩

/-- C4 evaluated on the code: with sample {img red.png, title Red
Shoe} and a single image-similarity hit {img blue.png, title Blue
Hat}, the Browse tab seeds the image query from the sampled image, but
seeds the similar-by-title query with "Blue Hat" — the title of the
last image-search result, because the display loop rebinds `r` — not
with the sampled title "Red Shoe" as the claim states.  The path taken
is still the text-to-text one with bound n = 10. -/
theorem C4_title_seed_uses_loop_variable :
    random_product initialCollection = { coll := initialCollection, size := 1 } ∧
    tab3Run (fun _ => [browseImageHit]) initialCollection browseSample =
      Except.ok (image_search initialCollection "red.png",
                 text_2_text_search initialCollection "Blue Hat") ∧
    getItem browseSample "title" = Except.ok "Red Shoe" ∧
    text_2_text_search initialCollection "Blue Hat" ≠
      text_2_text_search initialCollection "Red Shoe" ∧
    (text_2_text_search initialCollection "Blue Hat").vector_index = "text-index" ∧
    (text_2_text_search initialCollection "Blue Hat").n = 10 := by
  exact ⟨rfl, rfl, rfl, by decide, rfl, rfl⟩

/-- C5 counterexample: one rerun in which the user submits a raw
structured query already creates two backend connections — the cached
superduper handle and a fresh pymongo client — so the raw-query
dispatch does create a second backend connection. -/
theorem C5_raw_branch_second_connection :
    totalConnections (runSessions [true]) = 2 ∧
    ¬ totalConnections (runSessions [true]) ≤ 1 := by
  exact ⟨by decide, by decide⟩

/-- C5 amended: the lazily-initialized superduper handle is created at
most once per process and reused by every rerun, but the raw-query
branch constructs one fresh pymongo client per submission. -/
theorem C5_connection_reuse_amended :
    ∀ subs : List Bool,
      (runSessions subs).sdCreated ≤ 1 ∧
      (runSessions subs).pyCreated = subs.count true := by
  intro subs
  obtain ⟨⟨h1, _⟩, hp⟩ :=
    runSessions_invariant subs initialResources (by simp [sdInvariant, initialResources])
  refine ⟨h1, ?_⟩
  simpa [runSessions, initialResources] using hp

/-- C6 counterexample: a document whose title field is present but
empty is rendered successfully — handed to the rendering collaborator
with a blank caption — so returned documents are not guaranteed
non-empty image and title fields, and an empty field does not fail
loudly. -/
theorem C6_blank_title_renders :
    renderResults [blankTitleDoc] = Except.ok [("a.png", "")] ∧
    rendersOk (renderResults [blankTitleDoc]) = true := by
  exact ⟨rfl, rfl⟩

/-- C6 amended: the Text Search and Image Search tabs access the img
and title fields of every returned document, in order, and there a
document missing either field fails loudly with an uncaught KeyError
instead of rendering blank; the Browse-tab secondary columns access
only the one field they display — img in the image column, title in
the title column — so only that field is required and only its absence
fails loudly there; emptiness of the carried values is checked
nowhere. -/
theorem C6_missing_field_fails_loudly :
    (∀ docs : List Doc,
       rendersOk (renderResults docs) = true ↔
       ∀ d ∈ docs, ((getItem d "img").isOk && (getItem d "title").isOk) = true) ∧
    renderResults [[("title", "x")]] = Except.error "KeyError: img" ∧
    renderResults [[("img", "a.png")]] = Except.error "KeyError: title" ∧
    (∀ docs : List Doc,
       rendersOk (renderImageColumn docs) = true ↔
       ∀ d ∈ docs, (getItem d "img").isOk = true) ∧
    (∀ docs : List Doc,
       rendersOk (renderTitleColumn docs) = true ↔
       ∀ d ∈ docs, (getItem d "title").isOk = true) ∧
    renderImageColumn [[("img", "b.png")]] = Except.ok ["b.png"] ∧
    renderTitleColumn [[("title", "Blue Hat")]] = Except.ok ["Blue Hat"] ∧
    renderImageColumn [[("title", "x")]] = Except.error "KeyError: img" ∧
    renderTitleColumn [[("img", "a.png")]] = Except.error "KeyError: title" := by
  exact ⟨renderResults_ok_iff, rfl, rfl,
    renderFieldColumn_ok_iff "img", renderFieldColumn_ok_iff "title",
    rfl, rfl, rfl, rfl⟩

/-- Witness for C6 amended: a fully-fielded document renders in the
two-field tabs, and a title-less document renders in the image-only
column, by the equivalences applied at concrete lists. -/
theorem C6_missing_field_fails_loudly_witness :
    rendersOk (renderResults [[("img", "a"), ("title", "b")]]) = true ∧
    rendersOk (renderImageColumn [[("img", "b.png")]]) = true :=
  ⟨(C6_missing_field_fails_loudly.1 [[("img", "a"), ("title", "b")]]).mpr (by decide),
   (C6_missing_field_fails_loudly.2.2.2.1 [[("img", "b.png")]]).mpr (by decide)⟩

/-- C7: the session value starts as None (unknown) at process start,
a step changes it only on a login click — in which case it becomes
exactly the boolean verification result — and once it has left None no
later sequence of interactions ever returns it to None. -/
theorem C7_auth_session_tristate :
    authAfter [] = none ∧
    (∀ (s : Option Bool) (e : UiEvent), authStep s e ≠ s →
       ∃ u p, e = UiEvent.loginClick u p ∧ authStep s e = some (verify u p)) ∧
    (∀ evs more : List UiEvent, authAfter evs ≠ none → authAfter (evs ++ more) ≠ none) := by
  refine ⟨rfl, ?_, ?_⟩
  · intro s e h
    cases e with
    | loginClick u p =>
        exact ⟨u, p, rfl, by cases hv : verify u p <;> simp [authStep, loginHandler, hv]⟩
    | otherInteraction => exact absurd rfl h
  · intro evs more h
    unfold authAfter at *
    rw [List.foldl_append]
    exact foldl_authStep_ne_none more _ h

/-- Witness for C7: a concrete failed login leaves the rejected state,
and a further interaction cannot reset it to unknown. -/
theorem C7_auth_session_tristate_witness :
    (∃ u p, UiEvent.loginClick "admin" "wrong" = UiEvent.loginClick u p ∧
       authStep none (UiEvent.loginClick "admin" "wrong") = some (verify u p)) ∧
    authAfter ([UiEvent.loginClick "admin" "wrong"] ++ [UiEvent.otherInteraction]) ≠ none :=
  ⟨C7_auth_session_tristate.2.1 none (UiEvent.loginClick "admin" "wrong") (by decide),
   C7_auth_session_tristate.2.2 [UiEvent.loginClick "admin" "wrong"]
     [UiEvent.otherInteraction] (by decide)⟩

/-- C8: a parse failure of the structured query propagates to the
caller unchanged — the branch neither catches nor translates it — and
the vector-search dispatch hands back the backend outcome unmodified,
with no retry, backoff or fallback. -/
theorem C8_failure_propagation :
    (∀ (parseJson : String → Except String MongoFilter) (docs : List Doc) (q e : String),
       parseJson q = .error e → tab0RawQuery parseJson docs q = .error e) ∧
    (∀ (execute : LikeQuery → Except String (List Doc)) (q : LikeQuery),
       dispatchSearch execute q = execute q) := by
  refine ⟨?_, fun _ _ => rfl⟩
  intro parseJson docs q e h
  simp only [tab0RawQuery, h, Except.map]

/-- Witness for C8: a malformed query surfaces the library parse error
verbatim, and a failing backend call surfaces its failure verbatim. -/
theorem C8_failure_propagation_witness :
    tab0RawQuery bracesOnlyParse sampleColl "not json" =
      Except.error "json.decoder.JSONDecodeError" ∧
    dispatchSearch (fun _ => Except.error "ConnectionFailure")
      (text_2_image_search initialCollection "shoes") = Except.error "ConnectionFailure" :=
  ⟨C8_failure_propagation.1 bracesOnlyParse sampleColl "not json"
     "json.decoder.JSONDecodeError" rfl,
   C8_failure_propagation.2 (fun _ => Except.error "ConnectionFailure")
     (text_2_image_search initialCollection "shoes")⟩

/-- C9: the password hash is deterministic, the reference hash is the
single module-level value computed from the reference password — its
concrete value is the SHA-256 digest of "password" — and every
verification compares against that same precomputed value. -/
theorem C9_hash_deterministic_and_reused :
    (∀ p : String, hash_password p = hash_password p) ∧
    hashed_password = hash_password PASSWORD ∧
    hashed_password = "5e884898da28047151d0e56f8dc6292773603d0d6aabbdd62a11ef721d1542d8" ∧
    (∀ u p : String, verify u p = (u == USERNAME && (hash_password p == hashed_password))) :=
  ⟨fun _ => rfl, rfl, by decide, fun _ _ => rfl⟩

/-- C10: once the raw-query branch has run in a rerun, the module
variable `collection` holds the raw pymongo collection — a different
handle from the original superduper Collection — and the sample-one
operation and every `_search`-built query in the rest of that rerun
operate on whatever the variable then holds. -/
theorem C10_raw_query_rebinds_collection :
    collectionAfterTab0 true = CollHandle.pymongoColl "ecommerce" "multimodal" ∧
    collectionAfterTab0 false = initialCollection ∧
    collectionAfterTab0 true ≠ initialCollection ∧
    (∀ b : Bool, random_product (collectionAfterTab0 b) =
       { coll := collectionAfterTab0 b, size := 1 }) ∧
    (∀ (b : Bool) (k : String) (v : Payload) (i : String) (n : Nat),
       (_search (collectionAfterTab0 b) k v i n).coll = collectionAfterTab0 b) := by
  exact ⟨rfl, rfl, by decide, fun _ => rfl, fun _ _ _ _ _ => rfl⟩

end Frontend
